import Mathlib

/-!
# A verification development for the pygrister configuration and dispatch core

This file gives a shallow embedding, in Lean 4, of the configuration
resolver (`pygrister/config.py`), the request dispatcher
(`pygrister/apicaller.py`, method `apicall`) and the safe-mode guard
(`pygrister/api.py`, decorator `check_safemode`), together with theorems
about their behaviour.

Python dictionaries over string keys are modelled as association lists
with first-match lookup; `dict.update` is modelled key by key, keeping
the position of existing keys and appending new ones, exactly as CPython
does.  External effects (the network, the JSON decoder of the `requests`
library, the environment, the config file) enter as explicit parameters.
-/

namespace Pygrister

/-- A Python `dict[str, str]` as an association list: insertion order is
kept, keys are unique in every dict actually built by the code (lemmas
that need uniqueness take it as a hypothesis). -/
abbrev Dict := List (String × String)

/-- `d[k]` as an `Option`: the first binding of `k`, if any. -/
def lookup : Dict → String → Option String
  | [], _ => none
  | (k, v) :: rest, key => if k = key then some v else lookup rest key

/-- `k in d` for a Python dict. -/
def hasKey (d : Dict) (k : String) : Bool := (lookup d k).isSome

/-- `d[k] = v` on a Python dict: replaces the value in place if the key
exists (keeping its position), otherwise appends the new binding. -/
def setKey (d : Dict) (k v : String) : Dict :=
  if hasKey d k then d.map (fun p => if p.1 = k then (k, v) else p)
  else d ++ [(k, v)]

/-- `d.update(e)` on Python dicts: every binding of `e`, in order, is
written into `d`. -/
def dictUpdate (d : Dict) (e : Dict) : Dict :=
  e.foldl (fun acc p => setKey acc p.1 p.2) d

/-- The `PYGRISTER_CONFIG` default configuration table of `config.py`. -/
def PYGRISTER_CONFIG : Dict := [
  ("GRIST_API_KEY", "<your_api_key_here>"),
  ("GRIST_SELF_MANAGED", "N"),
  ("GRIST_SELF_MANAGED_HOME", "http://localhost:8484"),
  ("GRIST_SELF_MANAGED_SINGLE_ORG", "Y"),
  ("GRIST_SERVER_PROTOCOL", "https://"),
  ("GRIST_API_SERVER", "getgrist.com"),
  ("GRIST_API_ROOT", "api"),
  ("GRIST_TEAM_SITE", "docs"),
  ("GRIST_WORKSPACE_ID", "0"),
  ("GRIST_DOC_ID", "<your_doc_id_here>"),
  ("GRIST_RAISE_ERROR", "Y"),
  ("GRIST_SAFEMODE", "N")]

/-- `apikey2output` of `config.py`: obfuscate the API key, keeping the
first two and last two characters around a length indicator. -/
def apikey2output (apikey : String) : String :=
  let klen := apikey.length
  if klen < 5 then apikey
  else apikey.take 2 ++ "<" ++ toString (klen - 4) ++ ">" ++ apikey.drop (klen - 2)

/-- Python `str` on a string-to-string dict, for values made of plain
characters (no quotes or escapes), as produced by `str(cfcopy)`. -/
def dictRepr (d : Dict) : String :=
  "\x7b" ++ String.intercalate ", "
    (d.map fun p => "'" ++ p.1 ++ "': '" ++ p.2 ++ "'") ++ "\x7d"

/-- `Configurator.config2output` with `multiline=False` (the only form the
core calls): obfuscates the API key, then renders the dict. -/
def config2output (config : Dict) : String :=
  if config.isEmpty then "\x7b<empty>\x7d"
  else
    let cfcopy :=
      setKey config "GRIST_API_KEY" (apikey2output ((lookup config "GRIST_API_KEY").getD ""))
    dictRepr cfcopy

/-- The surrounding-whitespace strip performed by Python's `int()`. -/
def pyStrip (s : String) : List Char :=
  ((s.toList.dropWhile Char.isWhitespace).reverse.dropWhile Char.isWhitespace).reverse

/-- Python's `int(s)` on a string, as used on `GRIST_WORKSPACE_ID`:
surrounding whitespace is stripped, an optional sign precedes one or
more decimal digits (digit-group underscores are not modelled). `none`
models `ValueError`. -/
def pyParseInt (s : String) : Option Int :=
  match pyStrip s with
  | [] => none
  | c :: rest =>
    let signed : Bool × List Char :=
      if c = '-' then (true, rest) else if c = '+' then (false, rest) else (false, c :: rest)
    if signed.2 = [] then none
    else if signed.2.all Char.isDigit then
      let n : Nat := signed.2.foldl (fun acc d => acc * 10 + (d.toNat - '0'.toNat)) 0
      some (if signed.1 then -(n : Int) else (n : Int))
    else none

/-- Errors raised by the configuration layer: `GristApiNotConfigured`
with its message, or a Python `KeyError` on a missing key (never hit by
configs built from the defaults, kept for faithfulness). -/
inductive ConfigError where
  | notConfigured (msg : String)
  | keyError (key : String)
deriving DecidableEq, Repr

/-- The mutable state of a `Configurator`: the current config dict and
the three fields derived from it by `_post_reconfig`. -/
structure ConfState where
  config : Dict
  server : String
  raise_option : Bool
  safemode : Bool
deriving DecidableEq, Repr

/-- `cf[k]` where the key is known to be present (every config the code
builds starts from `PYGRISTER_CONFIG`, which has all recognized keys, and
updates never remove keys); absent keys default to `""`. -/
def cfGet (cf : Dict) (k : String) : String := (lookup cf k).getD ""

/-- `Configurator.make_server`: build the server part of the API url.
Python's `team_name or cf['GRIST_TEAM_SITE']` falls back on the
configured team exactly when `team_name` is the empty string. -/
def make_server (cf : Dict) (team_name : String) : String :=
  let the_team := if team_name = "" then cfGet cf "GRIST_TEAM_SITE" else team_name
  if cfGet cf "GRIST_SELF_MANAGED" = "N" then
    cfGet cf "GRIST_SERVER_PROTOCOL" ++ the_team ++ "." ++
      cfGet cf "GRIST_API_SERVER" ++ "/" ++ cfGet cf "GRIST_API_ROOT"
  else
    if cfGet cf "GRIST_SELF_MANAGED_SINGLE_ORG" = "Y" then
      cfGet cf "GRIST_SELF_MANAGED_HOME" ++ "/" ++ cfGet cf "GRIST_API_ROOT"
    else
      cfGet cf "GRIST_SELF_MANAGED_HOME" ++ "/o/" ++ the_team ++ "/" ++
        cfGet cf "GRIST_API_ROOT"

/-- `Configurator._post_reconfig`: validates the current config (all
values non-empty, workspace id castable to int) and, on success, derives
`server`, `raise_option` and `safemode`.  On failure the state is
returned as it was, paired with the raised error — matching Python,
where the exception leaves the already-assigned `self.config` in place
and the derived fields untouched. -/
def post_reconfig (st : ConfState) : ConfState × Option ConfigError :=
  if st.config.isEmpty || st.config.any (fun p => p.2 = "") then
    (st, some (.notConfigured ("Missing config values.\n" ++ config2output st.config)))
  else
    match lookup st.config "GRIST_WORKSPACE_ID" with
    | none => (st, some (.keyError "GRIST_WORKSPACE_ID"))
    | some ws_id =>
      match pyParseInt ws_id with
      | none => (st, some (.notConfigured
          ("Workspace ID must be castable to integer, not \"" ++ ws_id ++ "\".")))
      | some _ =>
        ({ st with
            server := make_server st.config "",
            raise_option := cfGet st.config "GRIST_RAISE_ERROR" = "Y",
            safemode := cfGet st.config "GRIST_SAFEMODE" = "Y" }, none)

/-- `Configurator.get_config`: defaults, then the `~/.gristapi/config.json`
file if present, then, for every key of the resulting dict, the value of
the environment variable of the same name if set.  The file contents and
the environment are external inputs, passed explicitly. -/
def get_config (file : Option Dict) (env : String → Option String) : Dict :=
  let config := match file with
    | some f => dictUpdate PYGRISTER_CONFIG f
    | none => PYGRISTER_CONFIG
  config.map fun p => match env p.1 with
    | some v => (p.1, v)
    | none => p

/-- `Configurator.reconfig`: rebuild the config from scratch
(`get_config`), apply the override dict on top if given, then run
`_post_reconfig`. -/
def reconfig (file : Option Dict) (env : String → Option String)
    (config : Option Dict) (st : ConfState) : ConfState × Option ConfigError :=
  let cfg := get_config file env
  let cfg := match config with
    | some c => dictUpdate cfg c
    | none => cfg
  post_reconfig { st with config := cfg }

/-- `Configurator.update_config`: apply the patch on top of the current
config (no re-read of file or environment — note the function does not
even take them as inputs), then run `_post_reconfig`. -/
def update_config (config : Dict) (st : ConfState) : ConfState × Option ConfigError :=
  post_reconfig { st with config := dictUpdate st.config config }

/-! ## The request dispatcher (`apicaller.py`) -/

/-- A JSON value, the type of decoded response bodies (`resp.json()`)
and of the JSON request payload. -/
inductive Json where
  | null
  | bool (b : Bool)
  | num (n : Int)
  | str (s : String)
  | arr (items : List Json)
  | obj (fields : List (String × Json))

/-- An HTTP response as seen through the `requests` library: status code
and body text (`""` models an empty body). -/
structure Response where
  status_code : Nat
  content : String
deriving DecidableEq, Repr

/-- `Response.ok` of `requests`: true unless the status code is a 4xx or
5xx client/server error. -/
def Response.is_ok (r : Response) : Bool :=
  !(400 ≤ r.status_code && r.status_code < 600)

/-- The request assembled by `apicall` and prepared through
`session.prepare_request` (`requests.Request(method, url, headers=...,
params=..., json=..., files=...)`). -/
structure PreparedReq where
  method : String
  url : String
  headers : Dict
  params : Option Dict
  json : Option Json
  files : Option (List String)

/-- The mutable state of an `ApiCaller`: whether a persistent session is
open, the call counter, the `ok` flag, the dry-run flag, and the last
request/response kept for inspection. -/
structure CallerState where
  hasSession : Bool
  apicalls : Nat
  ok : Bool
  dry_run : Bool
  request : Option PreparedReq
  response : Option Response

/-- The external world of one call: the network (mapping the prepared
request to the server's response; `session.send`) and the JSON decoder
of `requests` (`none` models a `JSONDecodeError`).  Transport-level
exceptions from `send` are not modelled: no claim concerns them. -/
structure ApiEnv where
  net : PreparedReq → Response
  jsonDecode : String → Option Json

/-- Exceptions escaping `apicall`: `raise_for_status` (an `HTTPError`
for a 4xx/5xx response when the raise option is on) or a
`JSONDecodeError` from `resp.json()`. -/
inductive CallError where
  | httpError (status : Nat)
  | jsonDecodeError
deriving DecidableEq, Repr

/-- The fixed body returned by a dry run:
`{'Error: No Content': 'Pygrister is running dry!'}`. -/
def drySentinel : Json := .obj [("Error: No Content", .str "Pygrister is running dry!")]

/-- The default headers of `apicall` when the caller passes none. -/
def defaultHeaders : Dict :=
  [("Content-Type", "application/json"), ("Accept", "application/json")]

/-- The request-preparation prefix of `ApiCaller.apicall` ("first, we
prepare the request"): fill in default headers when the caller passes
none, overwrite the `Authorization` header from the configurator's API
key, force the method to `GET` when a download file name is given and
otherwise to `POST` when a non-empty upload file list is given (Python
truthiness: `None` and the empty list both fail `elif upload_files:`),
then assemble the `Request` and prepare it on the session. -/
def prepareRequest (cfg : ConfState) (url : String) (method : String)
    (headers : Option Dict) (params : Option Dict) (json : Option Json)
    (filename : Option String) (upload_files : Option (List String)) : PreparedReq :=
  let headers := match headers with
    | none => defaultHeaders
    | some h => h
  let headers := dictUpdate headers
    [("Authorization", "Bearer " ++ cfGet cfg.config "GRIST_API_KEY")]
  let method := if filename.isSome then "GET"
    else if !(upload_files.getD []).isEmpty then "POST"
    else method
  { method := method, url := url, headers := headers,
    params := params, json := json, files := upload_files }

/-- `ApiCaller.apicall`.  Mirrors the source step by step: clear the
last request/response, prepare and record the request
(`prepareRequest`); in dry-run mode set `ok` and return the sentinel
outcome without touching the network; otherwise send, count the call,
record the response, set `ok`, apply `raise_for_status` if the raise
option is on, stream to the file and return a null body on a successful
download, and otherwise return the decoded body (`None` for an empty
body, `resp.json()` — which raises on non-JSON text — for a non-empty
one).  The file write itself is external I/O and is not modelled. -/
def apicall (env : ApiEnv) (cfg : ConfState) (url : String) (method : String)
    (headers : Option Dict) (params : Option Dict) (json : Option Json)
    (filename : Option String) (upload_files : Option (List String))
    (st : CallerState) : CallerState × Except CallError (Nat × Option Json) :=
  let st := { st with request := none, response := none }
  let req := prepareRequest cfg url method headers params json filename upload_files
  let st := { st with request := some req }
  if st.dry_run then
    ({ st with ok := true }, .ok (200, some drySentinel))
  else
    let resp := env.net req
    let st := { st with response := some resp, apicalls := st.apicalls + 1,
                        ok := resp.is_ok }
    if cfg.raise_option && !resp.is_ok then
      (st, .error (.httpError resp.status_code))
    else if filename.isSome && st.ok then
      (st, .ok (resp.status_code, none))
    else if resp.content = "" then
      (st, .ok (resp.status_code, none))
    else
      match env.jsonDecode resp.content with
      | some j => (st, .ok (resp.status_code, some j))
      | none => (st, .error .jsonDecodeError)

/-! ## The safe-mode guard (`api.py`, decorator `check_safemode`) -/

/-- What a guarded operation can raise: the `GristApiInSafeMode` error
of the guard itself, or an error of the wrapped call. -/
inductive GuardError where
  | inSafeMode (msg : String)
  | callError (e : CallError)
deriving DecidableEq, Repr

/-- The message of the safe-mode error. -/
def safeModeMsg : String := "Pygrister is in safe mode: you cannot write to db."

/-- The `check_safemode` decorator.  A wrapped operation is a state
transformer on the `ApiCaller` that either returns a result or raises —
Python mutations survive an exception, so the state always comes back.
When safe mode is on: save the dry-run flag, force dry-run, run the
operation, restore the flag (the `finally:` block), then raise
`GristApiInSafeMode` — unless the operation itself raised, in which case
that exception propagates past the `finally`.  When safe mode is off the
operation runs untouched. -/
def check_safemode {R : Type} (safemode : Bool)
    (funct : CallerState → CallerState × Except CallError R)
    (st : CallerState) : CallerState × Except GuardError R :=
  if safemode then
    let saved := st.dry_run
    let out := funct { st with dry_run := true }
    let st3 := { out.1 with dry_run := saved }
    match out.2 with
    | .ok _ => (st3, .error (.inSafeMode safeModeMsg))
    | .error e => (st3, .error (.callError e))
  else
    let out := funct st
    (out.1, out.2.mapError .callError)

/-! ## Concrete fixtures used by witnesses and counterexamples -/

/-- A valid configurator state: the default configuration. -/
def confSt0 : ConfState :=
  { config := PYGRISTER_CONFIG, server := "", raise_option := true, safemode := false }

/-- A configurator state with the raise-on-error flag off. -/
def cfgNoRaise : ConfState := { confSt0 with raise_option := false }

/-- A configurator state with safe mode on. -/
def cfgSafe : ConfState := { confSt0 with safemode := true }

/-- A fresh `ApiCaller` state. -/
def st0 : CallerState :=
  { hasSession := false, apicalls := 0, ok := true, dry_run := false,
    request := none, response := none }

/-- An `ApiCaller` state with the dry-run flag on. -/
def stDry : CallerState := { st0 with dry_run := true }

/-- A small concrete JSON decoder: accepts exactly the text `[1]`. -/
def jsonDecode0 : String → Option Json :=
  fun s => if s = "[1]" then some (.arr [.num 1]) else none

/-- A network answering every request with the same response. -/
def netConst (r : Response) : PreparedReq → Response := fun _ => r

/-- A world whose server answers 200 with an empty body. -/
def envEmpty : ApiEnv := { net := netConst ⟨200, ""⟩, jsonDecode := jsonDecode0 }

/-- A world whose server answers 200 with a non-JSON body. -/
def envBadJson : ApiEnv := { net := netConst ⟨200, "not json"⟩, jsonDecode := jsonDecode0 }

/-- A world whose server answers 404 with the JSON body `[1]`. -/
def envErr404 : ApiEnv := { net := netConst ⟨404, "[1]"⟩, jsonDecode := jsonDecode0 }

/-- The configuration of the spec's SaaS example: team `acme`, host
`example.com`. -/
def cfAcme : Dict :=
  dictUpdate PYGRISTER_CONFIG
    [("GRIST_TEAM_SITE", "acme"), ("GRIST_API_SERVER", "example.com")]

/-- The configuration of the spec's self-managed single-org example. -/
def cfSelfSingle : Dict := dictUpdate PYGRISTER_CONFIG [("GRIST_SELF_MANAGED", "Y")]

/-- Whether `sub` occurs as a contiguous substring of `s`; used to state
that an error message does not carry the configuration dump. -/
def containsSub (s sub : String) : Bool :=
  (List.range (s.length + 1)).any
    fun i => decide ((s.toList.drop i).take sub.length = sub.toList)

/-! ## Lemmas about the dict model -/

theorem lookup_nil (k : String) : lookup [] k = none := rfl

theorem lookup_cons (a b : String) (d : Dict) (k : String) :
    lookup ((a, b) :: d) k = if a = k then some b else lookup d k := rfl

theorem lookup_append (d e : Dict) (k : String) :
    lookup (d ++ e) k = (lookup d k).or (lookup e k) := by
  induction d with
  | nil => rfl
  | cons p rest ih =>
    obtain ⟨a, b⟩ := p
    by_cases ha : a = k <;> simp [lookup_cons, ha, ih, Option.or]

theorem lookup_eq_none_of_notin (d : Dict) (k : String) (h : k ∉ d.map Prod.fst) :
    lookup d k = none := by
  induction d with
  | nil => rfl
  | cons p rest ih =>
    obtain ⟨a, b⟩ := p
    simp only [List.map_cons, List.mem_cons] at h
    push_neg at h
    simp [lookup_cons, Ne.symm h.1, ih h.2]

theorem lookup_map_replace (k' v k : String) (h : k' ≠ k) (d : Dict) :
    lookup (d.map fun p => if p.1 = k' then (k', v) else p) k = lookup d k := by
  induction d with
  | nil => rfl
  | cons p rest ih =>
    obtain ⟨a, b⟩ := p
    by_cases ha : a = k'
    · subst ha
      simp [lookup_cons, h, ih]
    · simp [lookup_cons, ha, ih]

theorem lookup_map_replace_self (k' v : String) (d : Dict) (hk : hasKey d k' = true) :
    lookup (d.map fun p => if p.1 = k' then (k', v) else p) k' = some v := by
  induction d with
  | nil => simp [hasKey, lookup_nil] at hk
  | cons p rest ih =>
    obtain ⟨a, b⟩ := p
    by_cases ha : a = k'
    · subst ha
      simp [lookup_cons]
    · have hrest : hasKey rest k' = true := by
        simpa [hasKey, lookup_cons, ha] using hk
      simp [lookup_cons, ha, ih hrest]

theorem lookup_setKey (d : Dict) (k' v k : String) :
    lookup (setKey d k' v) k = if k' = k then some v else lookup d k := by
  by_cases he : k' = k
  · subst he
    unfold setKey
    by_cases hk : hasKey d k'
    · simp [hk, lookup_map_replace_self k' v d hk]
    · have hnone : lookup d k' = none := by
        cases hc : lookup d k' with
        | none => rfl
        | some v0 => exact absurd (by simp [hasKey, hc]) hk
      simp [hk, lookup_append, hnone, lookup_cons, Option.or]
  · unfold setKey
    by_cases hk : hasKey d k'
    · simp [hk, lookup_map_replace k' v k he d, he]
    · rw [if_neg hk, lookup_append, if_neg he]
      cases hc : lookup d k <;> simp [lookup_cons, lookup_nil, he, Option.or]

theorem lookup_dictUpdate (e : Dict) (he : (e.map Prod.fst).Nodup) (d : Dict) (k : String) :
    lookup (dictUpdate d e) k = (lookup e k).or (lookup d k) := by
  induction e generalizing d with
  | nil => rfl
  | cons p rest ih =>
    obtain ⟨a, b⟩ := p
    simp only [List.map_cons, List.nodup_cons] at he
    have step : dictUpdate d ((a, b) :: rest) = dictUpdate (setKey d a b) rest := rfl
    rw [step, ih he.2]
    by_cases hak : a = k
    · subst hak
      have hr : lookup rest a = none := lookup_eq_none_of_notin rest a he.1
      simp [lookup_cons, hr, lookup_setKey, Option.or]
    · simp [lookup_cons, hak, lookup_setKey, Option.or]

theorem lookup_map_env (env : String → Option String) (c : Dict) (k : String) :
    lookup (c.map fun p => match env p.1 with
      | some v => (p.1, v)
      | none => p) k = (lookup c k).map fun v => (env k).getD v := by
  induction c with
  | nil => rfl
  | cons p rest ih =>
    obtain ⟨a, b⟩ := p
    by_cases ha : a = k
    · subst ha
      cases henv : env a <;> simp [lookup_cons, henv, ih]
    · cases henv : env a <;> simp [lookup_cons, henv, ha, ih]

/-! ## Lemmas about `_post_reconfig` -/

theorem post_reconfig_config (st : ConfState) : (post_reconfig st).1.config = st.config := by
  unfold post_reconfig
  split
  · rfl
  · split
    · rfl
    · split
      · rfl
      · rfl

theorem post_reconfig_error_frame (st : ConfState) (e : ConfigError) :
    (post_reconfig st).2 = some e → (post_reconfig st).1 = st := by
  unfold post_reconfig
  split
  · intro _; rfl
  · split
    · intro _; rfl
    · split
      · intro _; rfl
      · intro h; simp at h

theorem post_reconfig_empty_val (st : ConfState)
    (h : st.config.any (fun p => p.2 = "") = true) :
    (post_reconfig st).2 =
      some (.notConfigured ("Missing config values.\n" ++ config2output st.config)) := by
  unfold post_reconfig
  simp [h]

theorem post_reconfig_bad_ws (st : ConfState) (w : String)
    (hne : st.config.isEmpty = false) (hval : st.config.any (fun p => p.2 = "") = false)
    (hw : lookup st.config "GRIST_WORKSPACE_ID" = some w) (hp : pyParseInt w = none) :
    (post_reconfig st).2 =
      some (.notConfigured ("Workspace ID must be castable to integer, not \"" ++ w ++ "\".")) := by
  unfold post_reconfig
  simp [hne, hval, hw, hp]

/-! ## Lemmas about `apicall` -/

theorem apicall_request (env : ApiEnv) (cfg : ConfState) (url method : String)
    (headers params : Option Dict) (json : Option Json) (filename : Option String)
    (upload_files : Option (List String)) (st : CallerState) :
    (apicall env cfg url method headers params json filename upload_files st).1.request =
      some (prepareRequest cfg url method headers params json filename upload_files) := by
  unfold apicall
  cases hdry : st.dry_run
  · simp only [hdry, Bool.false_eq_true, if_false]
    split
    · rfl
    · split
      · rfl
      · split
        · rfl
        · split <;> rfl
  · simp [hdry]

theorem apicall_dry (env : ApiEnv) (cfg : ConfState) (url method : String)
    (headers params : Option Dict) (json : Option Json) (filename : Option String)
    (upload_files : Option (List String)) (st : CallerState) (h : st.dry_run = true) :
    apicall env cfg url method headers params json filename upload_files st =
      ({ st with
          request := some (prepareRequest cfg url method headers params json
            filename upload_files),
          response := none, ok := true },
       .ok (200, some drySentinel)) := by
  unfold apicall
  simp [h]

/-! ## Claim C1 -/

/-- Claim C1, counterexample.  The claim asserts a dry run returns "a
fixed status code distinct from any real HTTP status" and "a success
flag reported as non-success".  On a concrete dry-run call the code
returns status `200` — HTTP OK, a real status — and sets the success
flag `ok` to `true`, not to `false`. -/
theorem C1_counterexample :
    (apicall envEmpty confSt0 "https://example.com/api" "POST" none none none
      none none stDry).2 = .ok (200, some drySentinel) ∧
    (apicall envEmpty confSt0 "https://example.com/api" "POST" none none none
      none none stDry).1.ok = true ∧
    ¬ (apicall envEmpty confSt0 "https://example.com/api" "POST" none none none
      none none stDry).1.ok = false := by
  refine ⟨rfl, rfl, fun h => ?_⟩
  exact Bool.noConfusion h

/-- Claim C1 (amended): while the dry-run flag is enabled, `apicall`
performs no network I/O — its outcome is the same for every network, the
call counter does not move and no response is recorded — and it returns
the fixed status `200` (a real HTTP status used as a sentinel) together
with the fixed sentinel body, reporting the call as a success
(`ok = true`). -/
theorem C1_dry_run_sentinel (env env' : ApiEnv) (cfg : ConfState) (url method : String)
    (headers params : Option Dict) (json : Option Json) (filename : Option String)
    (upload_files : Option (List String)) (st : CallerState) (h : st.dry_run = true) :
    (apicall env cfg url method headers params json filename upload_files st).2 =
        .ok (200, some drySentinel) ∧
    (apicall env cfg url method headers params json filename upload_files st).1.ok = true ∧
    (apicall env cfg url method headers params json filename upload_files st).1.apicalls =
        st.apicalls ∧
    (apicall env cfg url method headers params json filename upload_files st).1.response =
        none ∧
    apicall env cfg url method headers params json filename upload_files st =
        apicall env' cfg url method headers params json filename upload_files st := by
  rw [apicall_dry env cfg url method headers params json filename upload_files st h,
    apicall_dry env' cfg url method headers params json filename upload_files st h]
  exact ⟨rfl, rfl, rfl, rfl, rfl⟩

/-- Witness for C1: the amended statement at a concrete dry-run call. -/
theorem C1_dry_run_sentinel_witness :
    (apicall envEmpty confSt0 "https://example.com/api" "DELETE" none none none
      none none stDry).2 = .ok (200, some drySentinel) ∧
    (apicall envEmpty confSt0 "https://example.com/api" "DELETE" none none none
      none none stDry).1.apicalls = 0 ∧
    apicall envEmpty confSt0 "https://example.com/api" "DELETE" none none none
      none none stDry =
      apicall envBadJson confSt0 "https://example.com/api" "DELETE" none none none
        none none stDry := by
  have h := C1_dry_run_sentinel envEmpty envBadJson confSt0 "https://example.com/api"
    "DELETE" none none none none none stDry rfl
  exact ⟨h.1, h.2.2.1, h.2.2.2.2⟩

/-! ## Claim C2 -/

/-- Claim C2, counterexample.  The claim asserts a non-empty non-JSON
response body is returned as raw text "instead of raising".  On a
concrete call whose server answers `200` with the non-JSON body
`not json`, the code raises a `JSONDecodeError` and in particular does
not return the raw text. -/
theorem C2_counterexample :
    (apicall envBadJson cfgNoRaise "https://example.com/api" "GET" none none none
      none none st0).2 = .error .jsonDecodeError ∧
    ¬ (apicall envBadJson cfgNoRaise "https://example.com/api" "GET" none none none
      none none st0).2 = .ok (200, some (Json.str "not json")) := by
  refine ⟨rfl, fun h => ?_⟩
  exact Except.noConfusion h

/-- Claim C2 (amended): in ordinary or upload mode (no download file
name), when `raise_for_status` does not intervene, a response with an
empty body decodes to `None`; a response with a non-empty body that is
not valid JSON makes `apicall` raise a `JSONDecodeError` — the raw text
is not returned. -/
theorem C2_decode (env : ApiEnv) (cfg : ConfState) (url method : String)
    (headers params : Option Dict) (json : Option Json)
    (upload_files : Option (List String)) (st : CallerState)
    (hdry : st.dry_run = false)
    (hnoraise : (cfg.raise_option &&
      !(env.net (prepareRequest cfg url method headers params json none
        upload_files)).is_ok) = false) :
    ((env.net (prepareRequest cfg url method headers params json none
        upload_files)).content = "" →
      (apicall env cfg url method headers params json none upload_files st).2 =
        .ok ((env.net (prepareRequest cfg url method headers params json none
          upload_files)).status_code, none)) ∧
    ((env.net (prepareRequest cfg url method headers params json none
        upload_files)).content ≠ "" →
      env.jsonDecode (env.net (prepareRequest cfg url method headers params json none
        upload_files)).content = none →
      (apicall env cfg url method headers params json none upload_files st).2 =
        .error .jsonDecodeError) := by
  have hcond : ¬(cfg.raise_option = true ∧
      (env.net (prepareRequest cfg url method headers params json none
        upload_files)).is_ok = false) := by
    rintro ⟨h1, h2⟩
    rw [h1, h2] at hnoraise
    simp at hnoraise
  unfold apicall
  simp only [hdry, Bool.false_eq_true, if_false, Option.isSome_none, Bool.false_and,
    Bool.and_eq_true]
  constructor
  · intro hempty
    simp [hcond, hempty]
  · intro hne hdec
    simp [hcond, hne, hdec]

/-- Witness for C2: the amended statement at two concrete calls, one
with an empty body, one with a non-JSON body. -/
theorem C2_decode_witness :
    (apicall envEmpty cfgNoRaise "https://example.com/api" "GET" none none none
      none none st0).2 = .ok (200, none) ∧
    (apicall envBadJson cfgNoRaise "https://example.com/api" "GET" none none none
      none none st0).2 = .error .jsonDecodeError := by
  constructor
  · exact (C2_decode envEmpty cfgNoRaise "https://example.com/api" "GET" none none none
      none st0 rfl rfl).1 rfl
  · exact (C2_decode envBadJson cfgNoRaise "https://example.com/api" "GET" none none none
      none st0 rfl rfl).2 (by decide) rfl

/-! ## Claim C7 -/

/-- Claim C7, counterexample.  The claim asserts the decoded-body
component is always null in download mode, for every response and
whatever the raise-on-error flag.  On a concrete download call whose
server answers `404` with the JSON body `[1]`, with raise-on-error off,
the code falls through to the ordinary decoding line and returns the
decoded body, not null. -/
theorem C7_counterexample :
    (apicall envErr404 cfgNoRaise "https://example.com/api" "GET" none none none
      (some "out.db") none st0).2 = .ok (404, some (Json.arr [Json.num 1])) ∧
    ¬ (apicall envErr404 cfgNoRaise "https://example.com/api" "GET" none none none
      (some "out.db") none st0).2 = .ok (404, none) := by
  refine ⟨rfl, fun h => ?_⟩
  have h' : (Except.ok ((404 : Nat), some (Json.arr [Json.num 1])) :
      Except CallError (Nat × Option Json)) = .ok (404, none) := h
  simp at h'

/-- Claim C7 (amended): in download mode the decoded-body component is
null whenever the response is successful; when the response carries an
error status and the raise-on-error flag is off, `apicall` falls through
to ordinary-mode decoding — null for an empty body, the decoded JSON
value for a JSON body (and a `JSONDecodeError` otherwise). -/
theorem C7_download_body (env : ApiEnv) (cfg : ConfState) (url method : String)
    (headers params : Option Dict) (json : Option Json) (f : String)
    (upload_files : Option (List String)) (st : CallerState)
    (hdry : st.dry_run = false) :
    ((env.net (prepareRequest cfg url method headers params json (some f)
        upload_files)).is_ok = true →
      (apicall env cfg url method headers params json (some f) upload_files st).2 =
        .ok ((env.net (prepareRequest cfg url method headers params json (some f)
          upload_files)).status_code, none)) ∧
    ((env.net (prepareRequest cfg url method headers params json (some f)
        upload_files)).is_ok = false → cfg.raise_option = false →
      (((env.net (prepareRequest cfg url method headers params json (some f)
          upload_files)).content = "" →
        (apicall env cfg url method headers params json (some f) upload_files st).2 =
          .ok ((env.net (prepareRequest cfg url method headers params json (some f)
            upload_files)).status_code, none)) ∧
       (∀ j, (env.net (prepareRequest cfg url method headers params json (some f)
          upload_files)).content ≠ "" →
        env.jsonDecode (env.net (prepareRequest cfg url method headers params json (some f)
          upload_files)).content = some j →
        (apicall env cfg url method headers params json (some f) upload_files st).2 =
          .ok ((env.net (prepareRequest cfg url method headers params json (some f)
            upload_files)).status_code, some j)))) := by
  unfold apicall
  simp only [hdry, Bool.false_eq_true, if_false]
  constructor
  · intro hok
    simp [hok]
  · intro hbad hraise
    constructor
    · intro hempty
      simp [hbad, hraise, hempty]
    · intro j hne hdec
      simp [hbad, hraise, hne, hdec]

/-- Witness for C7: the amended statement at two concrete download
calls — a successful one (null body) and a 404 with raise off (decoded
body). -/
theorem C7_download_body_witness :
    (apicall envEmpty confSt0 "https://example.com/api" "GET" none none none
      (some "out.db") none st0).2 = .ok (200, none) ∧
    (apicall envErr404 cfgNoRaise "https://example.com/api" "GET" none none none
      (some "out.db") none st0).2 = .ok (404, some (Json.arr [Json.num 1])) := by
  constructor
  · exact (C7_download_body envEmpty confSt0 "https://example.com/api" "GET" none none
      none "out.db" none st0 rfl).1 rfl
  · exact ((C7_download_body envErr404 cfgNoRaise "https://example.com/api" "GET" none none
      none "out.db" none st0 rfl).2 rfl rfl).2 (Json.arr [Json.num 1]) (by decide) rfl

/-! ## Claim C8 -/

/-- Claim C8: the method of the prepared request is forced to `GET`
whenever a download file name is given (whatever method the caller
asked for), and to `POST` whenever upload files are given on a
descriptor without a download file name (download and upload mode being
mutually exclusive on one descriptor, per the data-model invariant);
`upload files given` means a non-empty list, since Python's
`elif upload_files:` treats `None` and `[]` alike. -/
theorem C8_method_forcing (env : ApiEnv) (cfg : ConfState) (url method : String)
    (headers params : Option Dict) (json : Option Json) (st : CallerState) :
    (∀ (f : String) (upload_files : Option (List String)),
      ((apicall env cfg url method headers params json (some f) upload_files st).1.request).map
        PreparedReq.method = some "GET") ∧
    (∀ fs : List String, fs ≠ [] →
      ((apicall env cfg url method headers params json none (some fs) st).1.request).map
        PreparedReq.method = some "POST") := by
  constructor
  · intro f upload_files
    rw [apicall_request]
    simp [prepareRequest]
  · intro fs hfs
    rw [apicall_request]
    cases fs with
    | nil => exact absurd rfl hfs
    | cons a l => simp [prepareRequest]

/-- Witness for C8: a download call requested as `DELETE` is prepared
as `GET`; an upload call requested as `DELETE` is prepared as `POST`. -/
theorem C8_method_forcing_witness :
    ((apicall envEmpty confSt0 "https://example.com/api" "DELETE" none none none
      (some "out.db") none st0).1.request).map PreparedReq.method = some "GET" ∧
    ((apicall envEmpty confSt0 "https://example.com/api" "DELETE" none none none
      none (some ["a.csv"]) st0).1.request).map PreparedReq.method = some "POST" := by
  constructor
  · exact (C8_method_forcing envEmpty confSt0 "https://example.com/api" "DELETE"
      none none none st0).1 "out.db" none
  · exact (C8_method_forcing envEmpty confSt0 "https://example.com/api" "DELETE"
      none none none st0).2 ["a.csv"] (by simp)

/-! ## Claim C3 -/

/-- Claim C3: a mutating operation (modelled, as in the source, as one
`apicall` guarded by `check_safemode`) invoked while safe mode is active
always raises `GristApiInSafeMode`; the dispatcher runs the whole inner
call in dry-run — so nothing is sent: the outcome is the same for every
network, the call counter does not move and no response is recorded —
and the prior dry-run flag is restored before the error propagates.
With safe mode inactive the guard passes the call through unchanged
(operations not tagged as mutating are not decorated at all). -/
theorem C3_safemode_guard (env env' : ApiEnv) (cfg : ConfState) (url method : String)
    (headers params : Option Dict) (json : Option Json) (filename : Option String)
    (upload_files : Option (List String)) (st : CallerState) :
    (cfg.safemode = true →
      (check_safemode cfg.safemode
        (apicall env cfg url method headers params json filename upload_files) st).2 =
          .error (.inSafeMode safeModeMsg) ∧
      (check_safemode cfg.safemode
        (apicall env cfg url method headers params json filename upload_files) st).1.dry_run =
          st.dry_run ∧
      (check_safemode cfg.safemode
        (apicall env cfg url method headers params json filename upload_files) st).1.apicalls =
          st.apicalls ∧
      (check_safemode cfg.safemode
        (apicall env cfg url method headers params json filename upload_files) st).1.response =
          none ∧
      check_safemode cfg.safemode
        (apicall env cfg url method headers params json filename upload_files) st =
      check_safemode cfg.safemode
        (apicall env' cfg url method headers params json filename upload_files) st) ∧
    (cfg.safemode = false →
      (check_safemode cfg.safemode
        (apicall env cfg url method headers params json filename upload_files) st).1 =
          (apicall env cfg url method headers params json filename upload_files st).1 ∧
      (check_safemode cfg.safemode
        (apicall env cfg url method headers params json filename upload_files) st).2 =
          ((apicall env cfg url method headers params json filename upload_files st).2).mapError
            .callError) := by
  constructor
  · intro hsafe
    have hinner := apicall_dry env cfg url method headers params json filename
      upload_files { st with dry_run := true } rfl
    have hinner' := apicall_dry env' cfg url method headers params json filename
      upload_files { st with dry_run := true } rfl
    simp only [check_safemode, hsafe, if_true, hinner, hinner']
    exact ⟨trivial, trivial, trivial, trivial, trivial⟩
  · intro hsafe
    simp only [check_safemode, hsafe, Bool.false_eq_true, if_false]
    exact ⟨trivial, trivial⟩

/-- Witness for C3: a concrete mutating call under safe mode raises the
safe-mode error, sends nothing, and restores the dry-run flag; the same
call without safe mode passes through. -/
theorem C3_safemode_guard_witness :
    (check_safemode cfgSafe.safemode
      (apicall envEmpty cfgSafe "https://example.com/api" "POST" none none none
        none none) st0).2 = .error (.inSafeMode safeModeMsg) ∧
    (check_safemode cfgSafe.safemode
      (apicall envEmpty cfgSafe "https://example.com/api" "POST" none none none
        none none) st0).1.apicalls = 0 ∧
    (check_safemode cfgSafe.safemode
      (apicall envEmpty cfgSafe "https://example.com/api" "POST" none none none
        none none) st0).1.dry_run = false ∧
    (check_safemode confSt0.safemode
      (apicall envEmpty confSt0 "https://example.com/api" "POST" none none none
        none none) st0).2 =
      ((apicall envEmpty confSt0 "https://example.com/api" "POST" none none none
        none none st0).2).mapError .callError := by
  have h := C3_safemode_guard envEmpty envBadJson cfgSafe "https://example.com/api"
    "POST" none none none none none st0
  have h0 := C3_safemode_guard envEmpty envBadJson confSt0 "https://example.com/api"
    "POST" none none none none none st0
  exact ⟨(h.1 rfl).1, (h.1 rfl).2.2.1, (h.1 rfl).2.1, (h0.2 rfl).2⟩

/-! ## Claim C4 -/

/-- Claim C4: after `reconfig(overrides)` the configuration maps every
overridden key to its override value, and every non-overridden
recognized key to its environment value if that variable is set, else
to the config-file value if the file binds it, else to the built-in
default.  (Key uniqueness of the file and override dicts is the Python
`dict` invariant.) -/
theorem C4_reconfig_precedence (file ov : Dict) (env : String → Option String)
    (st : ConfState) (k : String)
    (hfile : (file.map Prod.fst).Nodup) (hov : (ov.map Prod.fst).Nodup) :
    (∀ v, lookup ov k = some v →
      lookup ((reconfig (some file) env (some ov) st).1.config) k = some v) ∧
    (∀ dflt, lookup ov k = none → lookup PYGRISTER_CONFIG k = some dflt →
      lookup ((reconfig (some file) env (some ov) st).1.config) k =
        some ((env k).getD ((lookup file k).getD dflt))) := by
  have hc : (reconfig (some file) env (some ov) st).1.config =
      dictUpdate (get_config (some file) env) ov := by
    unfold reconfig
    exact post_reconfig_config _
  constructor
  · intro v hv
    rw [hc, lookup_dictUpdate ov hov, hv]
    rfl
  · intro dflt hnone hdflt
    rw [hc, lookup_dictUpdate ov hov, hnone]
    show lookup (get_config (some file) env) k = _
    unfold get_config
    rw [lookup_map_env env (dictUpdate PYGRISTER_CONFIG file) k,
      lookup_dictUpdate file hfile]
    cases hf : lookup file k <;> simp [hdflt, Option.or]

/-- Witness for C4: with a concrete file, environment and override map,
the overridden key takes the override value, a key set only in the
environment takes the environment value, and an untouched key keeps its
default. -/
theorem C4_reconfig_precedence_witness :
    lookup ((reconfig (some [("GRIST_TEAM_SITE", "fileteam"), ("GRIST_DOC_ID", "filedoc")])
        (fun k => if k = "GRIST_TEAM_SITE" then some "envteam" else none)
        (some [("GRIST_DOC_ID", "ovdoc")]) confSt0).1.config) "GRIST_DOC_ID" =
      some "ovdoc" ∧
    lookup ((reconfig (some [("GRIST_TEAM_SITE", "fileteam"), ("GRIST_DOC_ID", "filedoc")])
        (fun k => if k = "GRIST_TEAM_SITE" then some "envteam" else none)
        (some [("GRIST_DOC_ID", "ovdoc")]) confSt0).1.config) "GRIST_TEAM_SITE" =
      some "envteam" ∧
    lookup ((reconfig (some [("GRIST_TEAM_SITE", "fileteam"), ("GRIST_DOC_ID", "filedoc")])
        (fun k => if k = "GRIST_TEAM_SITE" then some "envteam" else none)
        (some [("GRIST_DOC_ID", "ovdoc")]) confSt0).1.config) "GRIST_API_SERVER" =
      some "getgrist.com" := by
  refine ⟨?_, ?_, ?_⟩
  · exact (C4_reconfig_precedence [("GRIST_TEAM_SITE", "fileteam"), ("GRIST_DOC_ID", "filedoc")]
      [("GRIST_DOC_ID", "ovdoc")]
      (fun k => if k = "GRIST_TEAM_SITE" then some "envteam" else none)
      confSt0 "GRIST_DOC_ID" (by decide) (by decide)).1 "ovdoc" rfl
  · exact (C4_reconfig_precedence [("GRIST_TEAM_SITE", "fileteam"), ("GRIST_DOC_ID", "filedoc")]
      [("GRIST_DOC_ID", "ovdoc")]
      (fun k => if k = "GRIST_TEAM_SITE" then some "envteam" else none)
      confSt0 "GRIST_TEAM_SITE" (by decide) (by decide)).2 "docs" rfl rfl
  · exact (C4_reconfig_precedence [("GRIST_TEAM_SITE", "fileteam"), ("GRIST_DOC_ID", "filedoc")]
      [("GRIST_DOC_ID", "ovdoc")]
      (fun k => if k = "GRIST_TEAM_SITE" then some "envteam" else none)
      confSt0 "GRIST_API_SERVER" (by decide) (by decide)).2 "getgrist.com" rfl rfl

/-! ## Claim C9 -/

/-- Claim C9: `update_config(patch)` maps every key of `patch` to its
patch value and every other key to its previous value; it re-reads
neither the environment nor the config file — indeed `update_config`
does not even take them as inputs, its result is a function of the
prior state and the patch alone. -/
theorem C9_update_config_frame (patch : Dict) (st : ConfState) (k : String)
    (hp : (patch.map Prod.fst).Nodup) :
    (∀ v, lookup patch k = some v →
      lookup ((update_config patch st).1.config) k = some v) ∧
    (lookup patch k = none →
      lookup ((update_config patch st).1.config) k = lookup st.config k) := by
  have hc : (update_config patch st).1.config = dictUpdate st.config patch := by
    unfold update_config
    exact post_reconfig_config _
  constructor
  · intro v hv
    rw [hc, lookup_dictUpdate patch hp, hv]
    rfl
  · intro hnone
    rw [hc, lookup_dictUpdate patch hp, hnone]
    rfl

/-- Witness for C9: patching the team key changes it and leaves the
document key at its previous value. -/
theorem C9_update_config_frame_witness :
    lookup ((update_config [("GRIST_TEAM_SITE", "patched")] confSt0).1.config)
      "GRIST_TEAM_SITE" = some "patched" ∧
    lookup ((update_config [("GRIST_TEAM_SITE", "patched")] confSt0).1.config)
      "GRIST_DOC_ID" = lookup confSt0.config "GRIST_DOC_ID" := by
  constructor
  · exact (C9_update_config_frame [("GRIST_TEAM_SITE", "patched")] confSt0
      "GRIST_TEAM_SITE" (by decide)).1 "patched" rfl
  · exact (C9_update_config_frame [("GRIST_TEAM_SITE", "patched")] confSt0
      "GRIST_DOC_ID" (by decide)).2 rfl

/-! ## Claim C10 -/

/-- Claim C10: when `update_config(patch)` raises `GristApiNotConfigured`,
the stored configuration has nevertheless already been mutated to the
patched map — the change is not rolled back — while the derived fields
`server`, `raise_option` and `safemode` keep their pre-call values. -/
theorem C10_update_config_no_rollback (patch : Dict) (st : ConfState) (msg : String)
    (h : (update_config patch st).2 = some (.notConfigured msg)) :
    (update_config patch st).1.config = dictUpdate st.config patch ∧
    (update_config patch st).1.server = st.server ∧
    (update_config patch st).1.raise_option = st.raise_option ∧
    (update_config patch st).1.safemode = st.safemode := by
  have h1 : (update_config patch st).1 = { st with config := dictUpdate st.config patch } := by
    unfold update_config at h ⊢
    exact post_reconfig_error_frame _ _ h
  rw [h1]
  exact ⟨rfl, rfl, rfl, rfl⟩

/-- Witness for C10: a patch with a non-integer workspace id makes
`update_config` raise, yet the stored config holds the patch and the
derived fields are unchanged. -/
theorem C10_update_config_no_rollback_witness :
    (update_config [("GRIST_WORKSPACE_ID", "abc")] confSt0).1.config =
      dictUpdate confSt0.config [("GRIST_WORKSPACE_ID", "abc")] ∧
    (update_config [("GRIST_WORKSPACE_ID", "abc")] confSt0).1.server = confSt0.server ∧
    (update_config [("GRIST_WORKSPACE_ID", "abc")] confSt0).1.raise_option =
      confSt0.raise_option ∧
    (update_config [("GRIST_WORKSPACE_ID", "abc")] confSt0).1.safemode =
      confSt0.safemode :=
  C10_update_config_no_rollback [("GRIST_WORKSPACE_ID", "abc")] confSt0
    "Workspace ID must be castable to integer, not \"abc\"." (by decide)

/-! ## Claim C5 -/

set_option maxRecDepth 4000 in
/-- Claim C5, counterexample.  The claim asserts both validation
failures carry a redacted dump of the attempted configuration.  On a
concrete `update_config` that makes the workspace id non-integer, the
raised error's message is the fixed workspace-id sentence, which does
not contain the configuration dump as a substring. -/
theorem C5_counterexample :
    (update_config [("GRIST_WORKSPACE_ID", "abc")] confSt0).2 =
      some (.notConfigured "Workspace ID must be castable to integer, not \"abc\".") ∧
    containsSub "Workspace ID must be castable to integer, not \"abc\"."
      (config2output (dictUpdate confSt0.config [("GRIST_WORKSPACE_ID", "abc")])) =
      false := by
  exact ⟨by decide, by decide⟩

/-- Claim C5 (amended): both `update_config` and `reconfig` raise
`GristApiNotConfigured` whenever some key of the attempted configuration
resolves to an empty string, and whenever `GRIST_WORKSPACE_ID` is not
parseable as an integer; the empty-value error carries the redacted dump
of the attempted configuration in its message, while the workspace-id
error carries only the offending value, without the dump. -/
theorem C5_config_errors (patch : Dict) (st : ConfState) (file : Option Dict)
    (env : String → Option String) (ov : Option Dict) :
    ((dictUpdate st.config patch).any (fun p => p.2 = "") = true →
      (update_config patch st).2 = some (.notConfigured
        ("Missing config values.\n" ++ config2output (dictUpdate st.config patch)))) ∧
    (∀ w, (dictUpdate st.config patch).isEmpty = false →
      (dictUpdate st.config patch).any (fun p => p.2 = "") = false →
      lookup (dictUpdate st.config patch) "GRIST_WORKSPACE_ID" = some w →
      pyParseInt w = none →
      (update_config patch st).2 = some (.notConfigured
        ("Workspace ID must be castable to integer, not \"" ++ w ++ "\"."))) ∧
    (let merged := match ov with
      | some o => dictUpdate (get_config file env) o
      | none => get_config file env
     (merged.any (fun p => p.2 = "") = true →
       (reconfig file env ov st).2 = some (.notConfigured
         ("Missing config values.\n" ++ config2output merged))) ∧
     (∀ w, merged.isEmpty = false → merged.any (fun p => p.2 = "") = false →
       lookup merged "GRIST_WORKSPACE_ID" = some w → pyParseInt w = none →
       (reconfig file env ov st).2 = some (.notConfigured
         ("Workspace ID must be castable to integer, not \"" ++ w ++ "\".")))) := by
  refine ⟨?_, ?_, ?_, ?_⟩
  · intro h
    exact post_reconfig_empty_val { st with config := dictUpdate st.config patch } h
  · intro w hne hval hw hp
    exact post_reconfig_bad_ws { st with config := dictUpdate st.config patch } w
      hne hval hw hp
  · intro h
    exact post_reconfig_empty_val _ h
  · intro w hne hval hw hp
    exact post_reconfig_bad_ws _ w hne hval hw hp

/-- Witness for C5: an empty-valued patch raises the error carrying the
dump; a non-integer workspace id raises the fixed workspace-id error;
a `reconfig` override with an empty value raises the dump-carrying
error as well. -/
theorem C5_config_errors_witness :
    (update_config [("GRIST_DOC_ID", "")] confSt0).2 = some (.notConfigured
      ("Missing config values.\n" ++
        config2output (dictUpdate confSt0.config [("GRIST_DOC_ID", "")]))) ∧
    (update_config [("GRIST_WORKSPACE_ID", "abc")] confSt0).2 = some (.notConfigured
      "Workspace ID must be castable to integer, not \"abc\".") ∧
    (reconfig none (fun _ => none) (some [("GRIST_API_KEY", "")]) confSt0).2 =
      some (.notConfigured
        ("Missing config values.\n" ++
          config2output (dictUpdate (get_config none (fun _ => none))
            [("GRIST_API_KEY", "")]))) := by
  refine ⟨?_, ?_, ?_⟩
  · exact (C5_config_errors [("GRIST_DOC_ID", "")] confSt0 none (fun _ => none)
      none).1 (by decide)
  · exact (C5_config_errors [("GRIST_WORKSPACE_ID", "abc")] confSt0 none (fun _ => none)
      none).2.1 "abc" (by decide) (by decide) (by decide) (by decide)
  · exact (C5_config_errors [] confSt0 none (fun _ => none)
      (some [("GRIST_API_KEY", "")])).2.2.1 (by decide)

/-! ## Claim C6 -/

/-- Claim C6: `make_server` is decided by the two hosting flags: with
`GRIST_SELF_MANAGED = N` it returns protocol ++ team ++ `.` ++ host ++
`/` ++ root; with `GRIST_SELF_MANAGED = Y` and single-org `Y` it
returns home ++ `/` ++ root, ignoring the team value (the equation does
not mention it); with `GRIST_SELF_MANAGED = Y` and single-org not `Y`
it returns home ++ `/o/` ++ team ++ `/` ++ root. -/
theorem C6_make_server_cases (cf : Dict) (protocol team host home root : String)
    (hproto : lookup cf "GRIST_SERVER_PROTOCOL" = some protocol)
    (hteam : lookup cf "GRIST_TEAM_SITE" = some team)
    (hhost : lookup cf "GRIST_API_SERVER" = some host)
    (hhome : lookup cf "GRIST_SELF_MANAGED_HOME" = some home)
    (hroot : lookup cf "GRIST_API_ROOT" = some root) :
    (lookup cf "GRIST_SELF_MANAGED" = some "N" →
      make_server cf "" = protocol ++ team ++ "." ++ host ++ "/" ++ root) ∧
    (lookup cf "GRIST_SELF_MANAGED" = some "Y" →
      lookup cf "GRIST_SELF_MANAGED_SINGLE_ORG" = some "Y" →
      make_server cf "" = home ++ "/" ++ root) ∧
    (∀ s, lookup cf "GRIST_SELF_MANAGED" = some "Y" →
      lookup cf "GRIST_SELF_MANAGED_SINGLE_ORG" = some s → s ≠ "Y" →
      make_server cf "" = home ++ "/o/" ++ team ++ "/" ++ root) := by
  refine ⟨?_, ?_, ?_⟩
  · intro hN
    simp [make_server, cfGet, hproto, hteam, hhost, hroot, hN]
  · intro hY hsingle
    simp [make_server, cfGet, hhome, hroot, hY, hsingle]
  · intro s hY hsingle hs
    simp [make_server, cfGet, hhome, hroot, hteam, hY, hsingle, hs]

/-- Witness for C6: the spec's two concrete scenarios — team `acme` on
host `example.com` under SaaS hosting, and the self-managed single-org
default home — plus the multi-org path shape. -/
theorem C6_make_server_cases_witness :
    make_server cfAcme "" = "https://acme.example.com/api" ∧
    make_server cfSelfSingle "" = "http://localhost:8484/api" ∧
    make_server (dictUpdate cfSelfSingle [("GRIST_SELF_MANAGED_SINGLE_ORG", "N")]) "" =
      "http://localhost:8484/o/docs/api" := by
  refine ⟨?_, ?_, ?_⟩
  · exact (C6_make_server_cases cfAcme "https://" "acme" "example.com"
      "http://localhost:8484" "api" (by decide) (by decide) (by decide) (by decide)
      (by decide)).1 (by decide)
  · exact (C6_make_server_cases cfSelfSingle "https://" "docs" "getgrist.com"
      "http://localhost:8484" "api" (by decide) (by decide) (by decide) (by decide)
      (by decide)).2.1 (by decide) (by decide)
  · exact (C6_make_server_cases (dictUpdate cfSelfSingle
      [("GRIST_SELF_MANAGED_SINGLE_ORG", "N")]) "https://" "docs" "getgrist.com"
      "http://localhost:8484" "api" (by decide) (by decide) (by decide) (by decide)
      (by decide)).2.2 "N" (by decide) (by decide) (by decide)

end Pygrister
